import Mathlib

/-!
Shallow embedding of `src/app/scraper.py` (class `IvaSmsScraper`).

The Selenium driver is treated as an opaque capability: a `DriverState`
records, for each bounded wait and element lookup the engine performs,
whether that condition resolves within its bound, together with the rows
the feed table currently renders.  Each engine method becomes a pure
function from the engine state (and the driver behaviour it observes) to
its Python return value, the successor state, and the list of messages
passed to the notification sink (`_send_notification`).

Modelling notes, each tied to a line of the source:
* `scraper.py:62` — the second login wait is
  `EC.url_contains("/portal") or EC.presence_of_element_located(sidebar)`.
  Python `or` applied to two truthy `EC` objects evaluates to the first,
  so only the URL condition is ever polled; the embedding therefore
  consults only `urlContainsPortal` and leaves `sidebarMenuPresent`
  unread, exactly as the code does.
* `scraper.py:130` and `scraper.py:183` — the same `or`-of-conditions
  pattern: the wait resolves iff the first condition (a rendered
  `tbody tr`) holds; the "No data available" branch is reached only via
  the separate `find_elements` check at `scraper.py:134`.
* `scraper.py:139-145` — inside the row loop only
  `NoSuchElementException` is caught; any other driver fault while
  reading a row escapes to the handler at `scraper.py:146`, which
  notifies and then falls through to `return otps`, i.e. the rows
  extracted before the fault are still returned.
* Exception texts interpolated into f-strings are elided: each
  notification is modelled by its fixed prefix.
* Clicks and keystroke interactions are modelled as succeeding whenever
  the element was found/clickable; the claims under study only exercise
  wait timeouts, missing elements, navigation faults and row faults.
-/

namespace IvaSms

/-- One rendered feed-table row as the extraction loop observes it:
reading `.//td[3]` (`scraper.py:141`) yields the cell text, raises
`NoSuchElementException` (cell absent), or raises some other
`WebDriverException` (driver fault) that aborts the loop. -/

inductive RowRead where
  | cell (text : String)
  | missingCell
  | fault
deriving DecidableEq, Repr

/-- The feed table as rendered at extraction time. -/

structure TableState where
  /-- selector `table#datatable-sms-received tbody tr` matches something -/
  trPresent : Bool
  /-- a `td` containing "No data available in table" is present -/
  noDataPresent : Bool
  /-- the rows `find_elements` returns at `scraper.py:138` -/
  rows : List RowRead
deriving Repr

/-- Which of `login`'s waits and lookups resolve within their bounds. -/

structure LoginBehaviour where
  /-- `driver.get(login_url)` (`scraper.py:50`) does not fault -/
  getOk : Bool
  /-- the `name="email"` field appears within 20 units (`scraper.py:51`) -/
  emailFieldAppears : Bool
  /-- email, password and submit button are all findable (`scraper.py:53-55`) -/
  formElementsPresent : Bool
  /-- post-submit, the URL comes to contain `/portal` within 20 units -/
  urlContainsPortal : Bool
  /-- post-submit, the `sidebar-menu` element is present within 20 units;
  dead in the code (see the `or` note above) but recorded so that theorems
  can quantify over it -/
  sidebarMenuPresent : Bool
deriving DecidableEq, Repr

/-- Which of `handle_popup`'s waits resolve within their bounds. -/

structure PopupBehaviour where
  /-- `.modal-content` appears within 5 units (`scraper.py:75`) -/
  modalAppears : Bool
  /-- a "Next" button becomes clickable within 3 units (`scraper.py:79`) -/
  nextClickable : Bool
  /-- after clicking "Next", it becomes invisible within 3 units (`scraper.py:81`) -/
  nextBecomesInvisible : Bool
  /-- a "Done" button becomes clickable within 5 units (`scraper.py:86`) -/
  doneClickable : Bool
  /-- after clicking "Done", `.modal-content` disappears within 5 units (`scraper.py:88`) -/
  modalDisappears : Bool
deriving DecidableEq, Repr

/-- Which of `navigate_to_otp_page`'s waits resolve within their bounds. -/

structure NavBehaviour where
  sidebarPresent : Bool
  menuClickable : Bool
  linkClickable : Bool
  urlBecomesOtpPage : Bool
deriving DecidableEq, Repr

/-- The opaque driver handle, read as the collection of behaviours the
engine's bounded waits and lookups would observe through it. -/

structure DriverState where
  login : LoginBehaviour
  popup : PopupBehaviour
  nav : NavBehaviour
  /-- `driver.get(otp_page_url)` (`scraper.py:152`, `scraper.py:169`) does not fault -/
  getOk : Bool
  /-- the feed table as `fetch_new_otps` finds it -/
  table : TableState
  /-- `date_from` appears within 10 units and `date_to` / "Get SMS" are
  findable (`scraper.py:171-174`) -/
  dateFieldsPresent : Bool
  /-- the table re-rendered after filling the given dates and clicking
  "Get SMS" (`scraper.py:176-185`) -/
  queryTable : String → String → TableState

/-- The engine state: the Seen-Set `self.sent_otps` and the optional
driver handle `self.driver` (`scraper.py:14` and `scraper.py:18`). -/

structure ScraperState where
  sent_otps : Finset String
  driver : Option DriverState

/- Notification texts (fixed prefixes; interpolated exception text elided). -/

def loginSuccessMsg : String := "Login successful."

def loginFailedMsg : String := "Login failed: "

def popupDetectedMsg : String := "Pop-up detected. Attempting to close."

def clickedNextMsg : String := "Clicked Next on pop-up."

def popupClosedMsg : String := "Pop-up closed successfully."

def noPopupMsg : String := "No pop-up or pop-up closed automatically."

def popupUnexpectedMsg : String := "An unexpected error occurred during pop-up handling: "

def navSuccessMsg : String := "Successfully navigated to My SMS Statistics page."

def navFailedMsg : String := "Navigation to OTP page failed: "

def navUnexpectedMsg : String := "An unexpected error occurred during navigation: "

def noDataMsg : String := "No data available in the SMS statistics table."

def skipMsg : String := "Could not find message text in a row. Skipping."

def extractErrMsg : String := "Error extracting OTPs from table: "

def fetchDriverErrMsg : String := "WebDriver error during new OTP fetch: "

def fetchUnexpectedMsg : String := "An unexpected error occurred during new OTP fetch: "

def histErrMsg : String := "Error fetching historical OTPs: "

def histUnexpectedMsg : String := "An unexpected error occurred during historical OTP fetch: "

/-- Python's `str.strip()`: remove leading and trailing whitespace.
Defined over the character list (rather than by `String.trim`, which is
extensionally the same) so that it computes by structural recursion. -/

def strip (s : String) : String :=
  ⟨((s.data.dropWhile Char.isWhitespace).reverse.dropWhile
      Char.isWhitespace).reverse⟩

/-- The row loop at `scraper.py:139-145`: collect `td[3].text.strip()` per
row, emit a skip notice for a missing cell, and on any other driver fault
abort, keeping what was collected (the fault escapes to `scraper.py:146`,
which notifies and returns the accumulated list). -/

def extractLoop : List RowRead → List String × List String
  | [] => ([], [])
  | RowRead.cell t :: rest =>
      let r := extractLoop rest
      (strip t :: r.1, r.2)
  | RowRead.missingCell :: rest =>
      let r := extractLoop rest
      (r.1, skipMsg :: r.2)
  | RowRead.fault :: _ => ([], [extractErrMsg])

/-- `_extract_otps_from_table` (`scraper.py:126-148`): returns the
extracted texts and the notifications emitted.  The wait at
`scraper.py:129-132` resolves iff a `tbody tr` is rendered (the second
`EC` in the Python `or` is dead); a timeout is caught at `scraper.py:146`
and yields the empty list with an error notification. -/

def extract_otps_from_table (t : TableState) : List String × List String :=
  if ¬ t.trPresent then ([], [extractErrMsg])
  else if t.noDataPresent then ([], [noDataMsg])
  else extractLoop t.rows

/-- The dedup filter at `scraper.py:154-158`: keep each extracted text
that is non-empty (`if otp`) and not in the Seen-Set, inserting it as it
is kept. -/

def dedupLoop : List String → Finset String → List String × Finset String
  | [], seen => ([], seen)
  | otp :: rest, seen =>
      if otp ≠ "" ∧ otp ∉ seen then
        let r := dedupLoop rest (insert otp seen)
        (otp :: r.1, r.2)
      else
        dedupLoop rest seen

/-- `fetch_new_otps` (`scraper.py:150-165`).  With no driver handle,
`None.get` raises and is caught by the blanket handler at
`scraper.py:163`; a navigation fault is caught at `scraper.py:160`;
otherwise the extraction runs and its survivors of the dedup filter are
returned while the Seen-Set absorbs them. -/

def fetch_new_otps (s : ScraperState) : List String × ScraperState × List String :=
  match s.driver with
  | none => ([], s, [fetchUnexpectedMsg])
  | some d =>
      if ¬ d.getOk then ([], s, [fetchDriverErrMsg])
      else
        let ext := extract_otps_from_table d.table
        let ded := dedupLoop ext.1 s.sent_otps
        (ded.1, { s with sent_otps := ded.2 }, ext.2)

/-- `get_historical_otps` (`scraper.py:167-194`).  Faults while loading
the page or locating the date fields are caught at `scraper.py:189`;
the wait at `scraper.py:182-185` resolves iff the re-rendered table has
a `tbody tr` (the second `EC` of the `or` is dead); then the extraction
pipeline runs on the re-rendered table.  The Seen-Set is never consulted
or modified on this path. -/

def get_historical_otps (s : ScraperState) (start_date end_date : String) :
    List String × ScraperState × List String :=
  match s.driver with
  | none => ([], s, [histUnexpectedMsg])
  | some d =>
      if ¬ d.getOk then ([], s, [histErrMsg])
      else if ¬ d.dateFieldsPresent then ([], s, [histErrMsg])
      else
        let t := d.queryTable start_date end_date
        if ¬ t.trPresent then ([], s, [histErrMsg])
        else
          let ext := extract_otps_from_table t
          (ext.1, s, ext.2)

/-- `login` (`scraper.py:45-71`).  `fresh` is the driver a call to
`_initialize_driver` would produce when no handle exists.  The decisive
step is the post-submit wait at `scraper.py:61-63`: because Python `or`
on two `EC` objects yields the first, only `urlContainsPortal` is
polled; `sidebarMenuPresent` never influences the outcome. -/

def login (fresh : DriverState) (s : ScraperState) :
    Bool × ScraperState × List String :=
  let d := s.driver.getD fresh
  let s' : ScraperState := { s with driver := some d }
  if ¬ d.login.getOk then (false, s', [loginFailedMsg])
  else if ¬ d.login.emailFieldAppears then (false, s', [loginFailedMsg])
  else if ¬ d.login.formElementsPresent then (false, s', [loginFailedMsg])
  else if d.login.urlContainsPortal then (true, s', [loginSuccessMsg])
  else (false, s', [loginFailedMsg])

/-- `handle_popup` (`scraper.py:73-99`).  A timeout anywhere outside the
inner "Next" attempt — including after the modal was detected — is caught
by the one handler at `scraper.py:91`, which sends the "No pop-up"
notification and returns `False`. -/

def handle_popup (s : ScraperState) : Bool × ScraperState × List String :=
  match s.driver with
  | none => (false, s, [popupUnexpectedMsg])
  | some d =>
      let p := d.popup
      if ¬ p.modalAppears then (false, s, [noPopupMsg])
      else
        let nextNs : List String :=
          if p.nextClickable then
            if p.nextBecomesInvisible then [clickedNextMsg] else []
          else []
        if ¬ p.doneClickable then
          (false, s, popupDetectedMsg :: nextNs ++ [noPopupMsg])
        else if ¬ p.modalDisappears then
          (false, s, popupDetectedMsg :: nextNs ++ [noPopupMsg])
        else
          (true, s, popupDetectedMsg :: nextNs ++ [popupClosedMsg])

/-- `navigate_to_otp_page` (`scraper.py:101-124`): succeeds iff every
wait on the way to the feed URL resolves. -/

def navigate_to_otp_page (s : ScraperState) : Bool × ScraperState × List String :=
  match s.driver with
  | none => (false, s, [navUnexpectedMsg])
  | some d =>
      let n := d.nav
      if n.sidebarPresent ∧ n.menuClickable ∧ n.linkClickable ∧ n.urlBecomesOtpPage
      then (true, s, [navSuccessMsg])
      else (false, s, [navFailedMsg])

/-- `close` (`scraper.py:196-199`): quit the driver if one exists and
clear the handle.  The Seen-Set is untouched. -/

def close (s : ScraperState) : ScraperState :=
  { s with driver := none }

/-- A sequence of `fetch_new_otps` calls on one engine instance; before
each call the driver observes the feed in whatever state the environment
has put it (`ds` supplies one `DriverState` per tick).  Returns the
delivered sequences per call and the final engine state. -/

def pollTrace : ScraperState → List DriverState → List (List String) × ScraperState
  | s, [] => ([], s)
  | s, d :: ds =>
      let r := fetch_new_otps { s with driver := some d }
      let rest := pollTrace r.2.1 ds
      (r.1 :: rest.1, rest.2)

/-! ### Concrete driver behaviours used to exercise the engine -/

def okLogin : LoginBehaviour :=
  { getOk := true, emailFieldAppears := true, formElementsPresent := true,
    urlContainsPortal := true, sidebarMenuPresent := true }

def noPopup : PopupBehaviour :=
  { modalAppears := false, nextClickable := false, nextBecomesInvisible := false,
    doneClickable := false, modalDisappears := false }

def okNav : NavBehaviour :=
  { sidebarPresent := true, menuClickable := true, linkClickable := true,
    urlBecomesOtpPage := true }

def emptyTable : TableState :=
  { trPresent := false, noDataPresent := false, rows := [] }

/-- A baseline healthy driver; individual scenarios override fields. -/

def baseDriver : DriverState :=
  { login := okLogin, popup := noPopup, nav := okNav, getOk := true,
    table := emptyTable, dateFieldsPresent := true,
    queryTable := fun _ _ => emptyTable }

/-- A feed whose first row reads normally and whose second raises a
`WebDriverException` mid-loop. -/

def faultAfterOneRowTable : TableState :=
  { trPresent := true, noDataPresent := false,
    rows := [RowRead.cell "123456", RowRead.fault] }

def faultAfterOneRowDriver : DriverState :=
  { baseDriver with table := faultAfterOneRowTable,
                    queryTable := fun _ _ => faultAfterOneRowTable }

def faultAfterOneRowState : ScraperState :=
  { sent_otps := ∅, driver := some faultAfterOneRowDriver }

/-- A fault that strikes `fetch_new_otps` or `get_historical_otps`
before the row loop runs: no driver handle, a `driver.get` fault, or a
timeout of the table wait. -/

def fetchPreExtractionFault (s : ScraperState) : Prop :=
  s.driver = none ∨
    ∃ d, s.driver = some d ∧ (¬ d.getOk ∨ ¬ d.table.trPresent)

/-- As `fetchPreExtractionFault`, for the historical path: additionally a
missing date field or a timeout of the post-query table wait. -/

def histPreExtractionFault (s : ScraperState) (a b : String) : Prop :=
  s.driver = none ∨
    ∃ d, s.driver = some d ∧
      (¬ d.getOk ∨ ¬ d.dateFieldsPresent ∨ ¬ (d.queryTable a b).trPresent)

/-- Post-login page state where the URL never comes to contain
`/portal` within the bound but the `sidebar-menu` marker is present. -/

def sidebarOnlyDriver : DriverState :=
  { baseDriver with
      login := { okLogin with urlContainsPortal := false,
                              sidebarMenuPresent := true } }

/-- Post-login page state where the URL matches but the marker is absent. -/

def urlOnlyDriver : DriverState :=
  { baseDriver with
      login := { okLogin with urlContainsPortal := true,
                              sidebarMenuPresent := false } }

/-- Modal detected, "Next" absent, then "Done" never becomes clickable:
every wait after detection times out. -/

def modalThenTimeoutDriver : DriverState :=
  { baseDriver with
      popup := { modalAppears := true, nextClickable := false,
                 nextBecomesInvisible := false, doneClickable := false,
                 modalDisappears := false } }

def modalThenTimeoutState : ScraperState :=
  { sent_otps := ∅, driver := some modalThenTimeoutDriver }

def noModalState : ScraperState :=
  { sent_otps := ∅, driver := some baseDriver }

/-- A two-row table: one record dated inside the 2025-10-01..2025-10-19
range, one outside it. -/
def twoRowTable : TableState :=
  { trPresent := true, noDataPresent := false,
    rows := [RowRead.cell "OTP 111111 2025-10-05",
             RowRead.cell "OTP 222222 2025-11-20"] }

/-- A stub driver whose table after the "Get SMS" query still renders
both rows, i.e. one that does not filter by date itself. -/
def twoRowRangeDriver : DriverState :=
  { baseDriver with queryTable := fun _ _ => twoRowTable }

def twoRowRangeState : ScraperState :=
  { sent_otps := ∅, driver := some twoRowRangeDriver }

/-- A stub driver that simulates the portal's server-side filtering:
after the query only the in-range row is rendered. -/
def inRangeOnlyDriver : DriverState :=
  { baseDriver with queryTable := fun _ _ =>
      { trPresent := true, noDataPresent := false,
        rows := [RowRead.cell "OTP 111111 2025-10-05"] } }

def inRangeOnlyState : ScraperState :=
  { sent_otps := ∅, driver := some inRangeOnlyDriver }

/-- A feed with one well-formed row (plus one malformed) on either side
of the malformed-row scenarios. -/
def oneMalformedTable : TableState :=
  { trPresent := true, noDataPresent := false,
    rows := [RowRead.cell "111111", RowRead.missingCell,
             RowRead.cell "222222"] }

/-- A feed whose one extracted record is already in the Seen-Set. -/
def seenFeedDriver : DriverState :=
  { baseDriver with
      table := { trPresent := true, noDataPresent := false,
                 rows := [RowRead.cell "123456"] } }

def seenFeedState : ScraperState :=
  { sent_otps := {"123456"}, driver := some seenFeedDriver }

/-- A feed with a whitespace-only message body in its first row. -/
def whitespaceRowTable : TableState :=
  { trPresent := true, noDataPresent := false,
    rows := [RowRead.cell "   ", RowRead.cell "999999"] }

def whitespaceRowDriver : DriverState :=
  { baseDriver with table := whitespaceRowTable,
                    queryTable := fun _ _ => whitespaceRowTable }

def whitespaceRowState : ScraperState :=
  { sent_otps := ∅, driver := some whitespaceRowDriver }

/-! ### Properties of the dedup filter -/

theorem dedupLoop_sent_eq (l : List String) (seen : Finset String) :
    (dedupLoop l seen).2 = seen ∪ (dedupLoop l seen).1.toFinset := by
  induction l generalizing seen with
  | nil => simp [dedupLoop]
  | cons otp rest ih =>
      by_cases h : otp ≠ "" ∧ otp ∉ seen
      · simp only [dedupLoop, if_pos h]
        rw [ih (insert otp seen)]
        ext x
        simp only [Finset.mem_union, Finset.mem_insert, List.toFinset_cons,
          List.mem_toFinset]
        tauto
      · simpa only [dedupLoop, if_neg h] using ih seen

theorem dedupLoop_not_mem_seen (l : List String) (seen : Finset String) :
    ∀ x ∈ (dedupLoop l seen).1, x ∉ seen := by
  induction l generalizing seen with
  | nil => simp [dedupLoop]
  | cons otp rest ih =>
      intro x hx
      by_cases h : otp ≠ "" ∧ otp ∉ seen
      · simp only [dedupLoop, if_pos h, List.mem_cons] at hx
        rcases hx with rfl | hx
        · exact h.2
        · intro hxs
          exact ih (insert otp seen) x hx (Finset.mem_insert_of_mem hxs)
      · simp only [dedupLoop, if_neg h] at hx
        exact ih seen x hx

theorem dedupLoop_nodup (l : List String) (seen : Finset String) :
    (dedupLoop l seen).1.Nodup := by
  induction l generalizing seen with
  | nil => simp [dedupLoop]
  | cons otp rest ih =>
      by_cases h : otp ≠ "" ∧ otp ∉ seen
      · simp only [dedupLoop, if_pos h, List.nodup_cons]
        refine ⟨fun hmem => ?_, ih (insert otp seen)⟩
        exact dedupLoop_not_mem_seen rest (insert otp seen) otp hmem
          (Finset.mem_insert_self otp seen)
      · simpa only [dedupLoop, if_neg h] using ih seen

theorem dedupLoop_no_empty (l : List String) (seen : Finset String) :
    "" ∉ (dedupLoop l seen).1 := by
  induction l generalizing seen with
  | nil => simp [dedupLoop]
  | cons otp rest ih =>
      by_cases h : otp ≠ "" ∧ otp ∉ seen
      · simp only [dedupLoop, if_pos h, List.mem_cons, not_or]
        exact ⟨fun he => h.1 he.symm, ih (insert otp seen)⟩
      · simpa only [dedupLoop, if_neg h] using ih seen

theorem dedupLoop_all_mem (l : List String) (seen : Finset String)
    (h : ∀ x ∈ l, x ∈ seen) : dedupLoop l seen = ([], seen) := by
  induction l with
  | nil => simp [dedupLoop]
  | cons otp rest ih =>
      have hmem : otp ∈ seen := h otp (List.mem_cons_self otp rest)
      have hcond : ¬ (otp ≠ "" ∧ otp ∉ seen) := fun hc => hc.2 hmem
      simp only [dedupLoop, if_neg hcond]
      exact ih fun x hx => h x (List.mem_cons_of_mem otp hx)

/-! ### Properties of the extraction loop -/

theorem extractLoop_map_cell (xs : List String) :
    extractLoop (xs.map RowRead.cell) = (xs.map strip, []) := by
  induction xs with
  | nil => simp [extractLoop]
  | cons x rest ih => simp [extractLoop, ih]

theorem extractLoop_append_no_fault (a b : List RowRead)
    (h : RowRead.fault ∉ a) :
    extractLoop (a ++ b) =
      ((extractLoop a).1 ++ (extractLoop b).1,
       (extractLoop a).2 ++ (extractLoop b).2) := by
  induction a with
  | nil => simp [extractLoop]
  | cons r rest ih =>
      have hr : r ≠ RowRead.fault := fun hre => h (hre ▸ List.mem_cons_self r rest)
      have hrest : RowRead.fault ∉ rest := fun hm => h (List.mem_cons_of_mem r hm)
      cases r with
      | cell t => simp [extractLoop, ih hrest]
      | missingCell => simp [extractLoop, ih hrest]
      | fault => exact absurd rfl hr

/-! ### Per-call properties of `fetch_new_otps` -/

theorem fetch_sent_eq (s : ScraperState) :
    (fetch_new_otps s).2.1.sent_otps =
      s.sent_otps ∪ (fetch_new_otps s).1.toFinset := by
  cases hd : s.driver with
  | none => simp [fetch_new_otps, hd]
  | some d =>
      by_cases hg : d.getOk
      · simp [fetch_new_otps, hd, hg, dedupLoop_sent_eq]
      · simp [fetch_new_otps, hd, hg]

theorem fetch_nodup (s : ScraperState) : (fetch_new_otps s).1.Nodup := by
  cases hd : s.driver with
  | none => simp [fetch_new_otps, hd]
  | some d =>
      by_cases hg : d.getOk
      · simp [fetch_new_otps, hd, hg, dedupLoop_nodup]
      · simp [fetch_new_otps, hd, hg]

theorem fetch_not_mem_seen (s : ScraperState) :
    ∀ x ∈ (fetch_new_otps s).1, x ∉ s.sent_otps := by
  cases hd : s.driver with
  | none => simp [fetch_new_otps, hd]
  | some d =>
      by_cases hg : d.getOk
      · intro x hx
        simp only [fetch_new_otps, hd, hg, not_true_eq_false, if_false] at hx
        exact dedupLoop_not_mem_seen _ _ x hx
      · simp [fetch_new_otps, hd, hg]

theorem fetch_sent_mono (s : ScraperState) :
    s.sent_otps ⊆ (fetch_new_otps s).2.1.sent_otps := by
  rw [fetch_sent_eq]
  exact Finset.subset_union_left

theorem fetch_out_subset_sent (s : ScraperState) :
    ∀ x ∈ (fetch_new_otps s).1, x ∈ (fetch_new_otps s).2.1.sent_otps := by
  intro x hx
  rw [fetch_sent_eq]
  exact Finset.mem_union_right _ (List.mem_toFinset.mpr hx)

/-! ### Properties of poll sequences -/

theorem pollTrace_not_mem_seen (ds : List DriverState) (s : ScraperState) :
    ∀ x ∈ (pollTrace s ds).1.flatten, x ∉ s.sent_otps := by
  induction ds generalizing s with
  | nil => simp [pollTrace]
  | cons d rest ih =>
      intro x hx
      simp only [pollTrace, List.flatten_cons, List.mem_append] at hx
      rcases hx with hx | hx
      · exact fetch_not_mem_seen { s with driver := some d } x hx
      · intro hmem
        exact ih _ x hx
          (fetch_sent_mono { s with driver := some d } hmem)

theorem pollTrace_join_nodup (ds : List DriverState) (s : ScraperState) :
    (pollTrace s ds).1.flatten.Nodup := by
  induction ds generalizing s with
  | nil => simp [pollTrace]
  | cons d rest ih =>
      simp only [pollTrace, List.flatten_cons, List.nodup_append]
      refine ⟨fetch_nodup _, ih _, ?_⟩
      intro x hx hx'
      exact pollTrace_not_mem_seen rest _ x hx'
        (fetch_out_subset_sent { s with driver := some d } x hx)

/-- C1: across any sequence of `fetch_new_otps` calls on one engine, no
message identity is delivered twice: each call's output has no
duplicates, the whole trace's concatenated output has no duplicates, and
after each call the Seen-Set equals its previous value union the
identities just returned. -/

theorem C1_poll_never_redelivers :
    (∀ s : ScraperState, (fetch_new_otps s).1.Nodup ∧
        (fetch_new_otps s).2.1.sent_otps =
          s.sent_otps ∪ (fetch_new_otps s).1.toFinset) ∧
    (∀ (s : ScraperState) (ds : List DriverState),
        (pollTrace s ds).1.flatten.Nodup) :=
  ⟨fun s => ⟨fetch_nodup s, fetch_sent_eq s⟩,
   fun s ds => pollTrace_join_nodup ds s⟩

/-- C2 counterexample: a driver fault during row extraction inside
`fetchRange` is caught and notified, but the records read before the
fault are still returned — the result is `["123456"]`, not the empty
sequence the claim requires for every driver fault. -/

theorem C2_counterexample_partial_result_on_fault :
    (get_historical_otps faultAfterOneRowState "2025-09-01" "2025-09-30").1
        = ["123456"] ∧
    (get_historical_otps faultAfterOneRowState "2025-09-01" "2025-09-30").2.2
        = [extractErrMsg] := by
  constructor <;> rfl

/-- C2 (amended): no driver fault or timeout ever raises past
`fetch_new_otps` or `get_historical_otps` (both are total in this
embedding, mirroring the blanket handlers); a fault striking before the
row loop yields the empty sequence with a notification; a fault striking
during the row loop is notified but yields the records extracted before
the fault rather than the empty sequence. -/

theorem C2_fault_notified_results_amended :
    (∀ s : ScraperState, fetchPreExtractionFault s →
        (fetch_new_otps s).1 = [] ∧ (fetch_new_otps s).2.2 ≠ []) ∧
    (∀ (s : ScraperState) (a b : String), histPreExtractionFault s a b →
        (get_historical_otps s a b).1 = [] ∧
        (get_historical_otps s a b).2.2 ≠ []) ∧
    (∀ (t : TableState) (pre rest : List RowRead),
        t.trPresent = true → t.noDataPresent = false →
        t.rows = pre ++ RowRead.fault :: rest → RowRead.fault ∉ pre →
        (extract_otps_from_table t).1 = (extractLoop pre).1 ∧
        extractErrMsg ∈ (extract_otps_from_table t).2) := by
  refine ⟨?_, ?_, ?_⟩
  · rintro s (hnone | ⟨d, hd, hf⟩)
    · simp [fetch_new_otps, hnone, fetchUnexpectedMsg]
    · rcases hf with hg | ht
      · simp [fetch_new_otps, hd, hg, fetchDriverErrMsg]
      · by_cases hg : d.getOk
        · simp [fetch_new_otps, hd, hg, extract_otps_from_table, ht,
            dedupLoop, extractErrMsg]
        · simp [fetch_new_otps, hd, hg, fetchDriverErrMsg]
  · rintro s a b (hnone | ⟨d, hd, hf⟩)
    · simp [get_historical_otps, hnone, histUnexpectedMsg]
    · by_cases hg : d.getOk
      · by_cases hdf : d.dateFieldsPresent
        · have ht : ¬ (d.queryTable a b).trPresent := by tauto
          simp [get_historical_otps, hd, hg, hdf, ht, histErrMsg]
        · simp [get_historical_otps, hd, hg, hdf, histErrMsg]
      · simp [get_historical_otps, hd, hg, histErrMsg]
  · intro t pre rest htr hnd hrows hpre
    have hext : extract_otps_from_table t = extractLoop t.rows := by
      simp [extract_otps_from_table, htr, hnd]
    rw [hext, hrows, extractLoop_append_no_fault pre (RowRead.fault :: rest) hpre]
    simp [extractLoop]

/-- Witness for `C2_fault_notified_results_amended`: a missing driver
handle on both paths, and the one-good-row-then-fault table. -/

theorem C2_fault_notified_results_amended_witness :
    ((fetch_new_otps { sent_otps := ∅, driver := none }).1 = [] ∧
     (fetch_new_otps { sent_otps := ∅, driver := none }).2.2 ≠ []) ∧
    ((get_historical_otps { sent_otps := ∅, driver := none }
        "2025-09-01" "2025-09-30").1 = [] ∧
     (get_historical_otps { sent_otps := ∅, driver := none }
        "2025-09-01" "2025-09-30").2.2 ≠ []) ∧
    ((extract_otps_from_table faultAfterOneRowTable).1 =
        (extractLoop [RowRead.cell "123456"]).1 ∧
     extractErrMsg ∈ (extract_otps_from_table faultAfterOneRowTable).2) :=
  ⟨C2_fault_notified_results_amended.1 _ (Or.inl rfl),
   C2_fault_notified_results_amended.2.1 _ "2025-09-01" "2025-09-30" (Or.inl rfl),
   C2_fault_notified_results_amended.2.2 faultAfterOneRowTable
     [RowRead.cell "123456"] [] rfl rfl rfl (by simp)⟩

/-- C3, evaluated at the failing input: with the post-login navigation
marker present but the URL not matching the authenticated-area prefix,
`login` returns `False` with a failure notification — the wait at
`scraper.py:61-63` polls only `EC.url_contains`, because Python `or`
applied to the two truthy `EC` objects discards the second; with the URL
matching and the marker absent, `login` succeeds, confirming that only
the first condition is ever consulted. -/

theorem C3_login_ignores_marker_condition :
    ((login sidebarOnlyDriver { sent_otps := ∅, driver := none }).1 = false ∧
     (login sidebarOnlyDriver { sent_otps := ∅, driver := none }).2.2
        = [loginFailedMsg]) ∧
    (login urlOnlyDriver { sent_otps := ∅, driver := none }).1 = true := by
  refine ⟨⟨?_, ?_⟩, ?_⟩ <;> rfl

/-- C4 counterexample: after the modal was confirmed present, a timeout
waiting for "Done" lands in the same `except TimeoutException` handler
(`scraper.py:91`) as the no-modal case: the call returns the identical
non-error `False` and ends with the same "No pop-up" notification, so
the outcome is not an error distinguishable from the no-modal no-op. -/

theorem C4_counterexample_timeout_is_silent :
    (handle_popup modalThenTimeoutState).1 = false ∧
    (handle_popup noModalState).1 = false ∧
    (handle_popup modalThenTimeoutState).2.2 = [popupDetectedMsg, noPopupMsg] ∧
    (handle_popup noModalState).2.2 = [noPopupMsg] := by
  refine ⟨?_, ?_, ?_, ?_⟩ <;> rfl

/-- C4 (amended): `handle_popup` returns a non-error `false` when no
modal appears within the bound, and `true` when a modal is presented,
"Next" absent, and "Done" clicked with the modal disappearing; but a
timeout after the modal was confirmed present produces the same `false`
result and the same final "No pop-up" notification as the no-modal
no-op — only the earlier "Pop-up detected" notification distinguishes
the two runs, never the returned outcome. -/

theorem C4_popup_outcomes_amended :
    (∀ (s : ScraperState) (d : DriverState), s.driver = some d →
        d.popup.modalAppears = false →
        handle_popup s = (false, s, [noPopupMsg])) ∧
    (∀ (s : ScraperState) (d : DriverState), s.driver = some d →
        d.popup.modalAppears = true → d.popup.nextClickable = false →
        d.popup.doneClickable = true → d.popup.modalDisappears = true →
        handle_popup s = (true, s, [popupDetectedMsg, popupClosedMsg])) ∧
    (∀ (s : ScraperState) (d : DriverState), s.driver = some d →
        d.popup.modalAppears = true →
        (d.popup.doneClickable = false ∨ d.popup.modalDisappears = false) →
        (handle_popup s).1 = false ∧
        (handle_popup s).2.2.getLast? = some noPopupMsg) := by
  refine ⟨?_, ?_, ?_⟩
  · intro s d hd hm
    simp [handle_popup, hd, hm]
  · intro s d hd hm hnext hdone hdis
    simp [handle_popup, hd, hm, hnext, hdone, hdis]
  · intro s d hd hm hfail
    have hrew : handle_popup s =
        (false, s,
          popupDetectedMsg ::
            (if d.popup.nextClickable = true then
              if d.popup.nextBecomesInvisible = true then [clickedNextMsg]
              else []
            else []) ++ [noPopupMsg]) := by
      rcases hfail with hdone | hdis
      · simp [handle_popup, hd, hm, hdone]
      · by_cases hdone : d.popup.doneClickable
        · simp [handle_popup, hd, hm, hdone, hdis]
        · simp [handle_popup, hd, hm, hdone]
    rw [hrew]
    refine ⟨rfl, ?_⟩
    rw [show popupDetectedMsg ::
          (if d.popup.nextClickable = true then
            if d.popup.nextBecomesInvisible = true then [clickedNextMsg]
            else []
          else []) ++ [noPopupMsg] =
        (popupDetectedMsg ::
          (if d.popup.nextClickable = true then
            if d.popup.nextBecomesInvisible = true then [clickedNextMsg]
            else []
          else [])) ++ [noPopupMsg] from rfl,
      List.getLast?_concat]

/-- Witness for `C4_popup_outcomes_amended`: the no-modal driver, a
successfully dismissed modal, and the modal-then-timeout driver. -/

theorem C4_popup_outcomes_amended_witness :
    handle_popup noModalState = (false, noModalState, [noPopupMsg]) ∧
    handle_popup
        { sent_otps := ∅,
          driver := some { baseDriver with
            popup := { modalAppears := true, nextClickable := false,
                       nextBecomesInvisible := false, doneClickable := true,
                       modalDisappears := true } } } =
      (true, { sent_otps := ∅,
               driver := some { baseDriver with
                 popup := { modalAppears := true, nextClickable := false,
                            nextBecomesInvisible := false, doneClickable := true,
                            modalDisappears := true } } },
       [popupDetectedMsg, popupClosedMsg]) ∧
    ((handle_popup modalThenTimeoutState).1 = false ∧
     (handle_popup modalThenTimeoutState).2.2.getLast? = some noPopupMsg) :=
  ⟨C4_popup_outcomes_amended.1 noModalState baseDriver rfl rfl,
   C4_popup_outcomes_amended.2.1 _ _ rfl rfl rfl rfl rfl,
   C4_popup_outcomes_amended.2.2 modalThenTimeoutState modalThenTimeoutDriver
     rfl rfl (Or.inl rfl)⟩

/-- C5 counterexample: against a stub driver whose feed table still
renders both rows after the query — one dated inside the supplied range,
one outside — `get_historical_otps` returns both records: the
out-of-range record appears in the result, refuting the claim that
exactly the in-range record is returned.  The code reads only the
message-body cell of each rendered row and never compares dates. -/
theorem C5_counterexample_out_of_range_returned :
    (get_historical_otps twoRowRangeState "2025-10-01" "2025-10-19").1
      = ["OTP 111111 2025-10-05", "OTP 222222 2025-11-20"] := by
  rfl

/-- C5 (amended): `get_historical_otps` applies no date filtering of its
own; it returns exactly the stripped body texts, in order, of whatever
rows the driver renders after the query is submitted.  The scenario of
the claim holds only when the stub itself filters: a post-query table
rendering only the in-range row yields exactly the in-range record. -/
theorem C5_fetchRange_returns_rendered_rows :
    ∀ (s : ScraperState) (d : DriverState) (a b : String)
      (texts : List String),
      s.driver = some d → d.getOk = true → d.dateFieldsPresent = true →
      (d.queryTable a b).trPresent = true →
      (d.queryTable a b).noDataPresent = false →
      (d.queryTable a b).rows = texts.map RowRead.cell →
      (get_historical_otps s a b).1 = texts.map strip := by
  intro s d a b texts hd hg hdf htr hnd hrows
  simp [get_historical_otps, hd, hg, hdf, htr, extract_otps_from_table, hnd,
    hrows, extractLoop_map_cell]

/-- Witness for `C5_fetchRange_returns_rendered_rows`: the stub that
renders only the in-range row after the query returns exactly that
record. -/
theorem C5_fetchRange_returns_rendered_rows_witness :
    (get_historical_otps inRangeOnlyState "2025-10-01" "2025-10-19").1
      = ["OTP 111111 2025-10-05"] := by
  have h := C5_fetchRange_returns_rendered_rows inRangeOnlyState
    inRangeOnlyDriver "2025-10-01" "2025-10-19" ["OTP 111111 2025-10-05"]
    rfl rfl rfl rfl rfl rfl
  exact h.trans (by rfl)

/-- C6: extraction over a feed of N+1 rows of which exactly one lacks
the message-body cell returns exactly the stripped texts of the N
well-formed rows in order, and emits exactly one skip notification for
the malformed row — the batch is not aborted and no error is reported. -/
theorem C6_malformed_row_skipped_not_fatal :
    ∀ (t : TableState) (pre post : List String),
      t.trPresent = true → t.noDataPresent = false →
      t.rows = pre.map RowRead.cell
                 ++ RowRead.missingCell :: post.map RowRead.cell →
      (extract_otps_from_table t).1 = (pre ++ post).map strip ∧
      (extract_otps_from_table t).2 = [skipMsg] := by
  intro t pre post htr hnd hrows
  have hnf : RowRead.fault ∉ pre.map RowRead.cell := by simp
  have hext : extract_otps_from_table t = extractLoop t.rows := by
    simp [extract_otps_from_table, htr, hnd]
  rw [hext, hrows, extractLoop_append_no_fault _ _ hnf, extractLoop_map_cell]
  simp [extractLoop, extractLoop_map_cell]

/-- Witness for `C6_malformed_row_skipped_not_fatal`: a three-row feed
whose middle row lacks the body cell yields the two well-formed records
and one skip notice. -/
theorem C6_malformed_row_skipped_not_fatal_witness :
    (extract_otps_from_table oneMalformedTable).1
        = (["111111"] ++ ["222222"]).map strip ∧
    (extract_otps_from_table oneMalformedTable).2 = [skipMsg] :=
  C6_malformed_row_skipped_not_fatal oneMalformedTable ["111111"] ["222222"]
    rfl rfl rfl

/-- C7: a `fetch_new_otps` run whose extracted records are all already
members of the Seen-Set (including, vacuously, a run whose extraction
yields the empty sequence) returns the empty sequence and leaves the
Seen-Set exactly as it was. -/
theorem C7_poll_noop_when_nothing_new :
    ∀ s : ScraperState,
      (∀ d, s.driver = some d →
          ∀ x ∈ (extract_otps_from_table d.table).1, x ∈ s.sent_otps) →
      (fetch_new_otps s).1 = [] ∧
      (fetch_new_otps s).2.1.sent_otps = s.sent_otps := by
  intro s hall
  cases hd : s.driver with
  | none => simp [fetch_new_otps, hd]
  | some d =>
      by_cases hg : d.getOk
      · have h := dedupLoop_all_mem (extract_otps_from_table d.table).1
          s.sent_otps (hall d hd)
        simp [fetch_new_otps, hd, hg, h]
      · simp [fetch_new_otps, hd, hg]

/-- Witness for `C7_poll_noop_when_nothing_new`: a feed whose one record
is already in the Seen-Set. -/
theorem C7_poll_noop_when_nothing_new_witness :
    (fetch_new_otps seenFeedState).1 = [] ∧
    (fetch_new_otps seenFeedState).2.1.sent_otps
      = seenFeedState.sent_otps := by
  refine C7_poll_noop_when_nothing_new seenFeedState ?_
  intro d hd x hx
  have hd' : seenFeedDriver = d := Option.some.inj hd
  subst hd'
  have hx' : x ∈ ["123456"] := hx
  have hx'' : x = "123456" := by simpa using hx'
  subst hx''
  exact Finset.mem_singleton_self "123456"

theorem login_sent_eq (fresh : DriverState) (s : ScraperState) :
    (login fresh s).2.1.sent_otps = s.sent_otps := by
  simp only [login]
  split_ifs <;> rfl

theorem handle_popup_state_eq (s : ScraperState) : (handle_popup s).2.1 = s := by
  cases hd : s.driver with
  | none => simp [handle_popup, hd]
  | some d =>
      simp only [handle_popup, hd]
      split_ifs <;> rfl

theorem navigate_state_eq (s : ScraperState) :
    (navigate_to_otp_page s).2.1 = s := by
  cases hd : s.driver with
  | none => simp [navigate_to_otp_page, hd]
  | some d =>
      simp only [navigate_to_otp_page, hd]
      split_ifs <;> rfl

theorem hist_state_eq (s : ScraperState) (a b : String) :
    (get_historical_otps s a b).2.1 = s := by
  cases hd : s.driver with
  | none => simp [get_historical_otps, hd]
  | some d =>
      simp only [get_historical_otps, hd]
      split_ifs <;> rfl

/-- C8: the Seen-Set only grows.  Every engine operation — `login`,
`handle_popup`, `navigate_to_otp_page`, `fetch_new_otps`,
`get_historical_otps`, `close` — leaves the Seen-Set a superset of its
previous value; only `fetch_new_otps` touches it at all, and it only
inserts. -/
theorem C8_seen_set_monotone :
    ∀ (s : ScraperState) (fresh : DriverState) (a b : String),
      s.sent_otps ⊆ (login fresh s).2.1.sent_otps ∧
      s.sent_otps ⊆ (handle_popup s).2.1.sent_otps ∧
      s.sent_otps ⊆ (navigate_to_otp_page s).2.1.sent_otps ∧
      s.sent_otps ⊆ (fetch_new_otps s).2.1.sent_otps ∧
      s.sent_otps ⊆ (get_historical_otps s a b).2.1.sent_otps ∧
      s.sent_otps ⊆ (close s).sent_otps := by
  intro s fresh a b
  refine ⟨?_, ?_, ?_, fetch_sent_mono s, ?_, ?_⟩
  · rw [login_sent_eq]
  · rw [handle_popup_state_eq]
  · rw [navigate_state_eq]
  · rw [hist_state_eq]
  · exact Finset.Subset.refl _

/-- C9: `close` clears the driver handle, is a pure no-op on a state
with no handle (and, being total in this embedding, never faults), and
a second `close` immediately after a first leaves the engine in exactly
the state a single `close` produces. -/
theorem C9_close_idempotent :
    ∀ s : ScraperState,
      (s.driver = none → close s = s) ∧
      (close s).driver = none ∧
      close (close s) = close s := by
  intro s
  refine ⟨?_, rfl, rfl⟩
  intro h
  cases s with
  | mk sent drv =>
      have h' : drv = none := h
      subst h'
      rfl

/-- Witness for `C9_close_idempotent`: the freshly constructed engine
with no driver handle. -/
theorem C9_close_idempotent_witness :
    close { sent_otps := ∅, driver := none }
        = ({ sent_otps := ∅, driver := none } : ScraperState) ∧
    close (close { sent_otps := ∅, driver := none })
        = close ({ sent_otps := ∅, driver := none } : ScraperState) :=
  ⟨(C9_close_idempotent _).1 rfl, (C9_close_idempotent _).2.2⟩

/-- C10: only the poll path enforces the non-empty-identity invariant.
`fetch_new_otps` never returns the empty identity, while against a feed
whose first row's body cell is whitespace-only `get_historical_otps`
returns an empty-string record and `fetch_new_otps` over the very same
feed drops it. -/
theorem C10_empty_identity_only_filtered_on_poll :
    (∀ s : ScraperState, "" ∉ (fetch_new_otps s).1) ∧
    (get_historical_otps whitespaceRowState "2025-10-01" "2025-10-19").1
      = ["", "999999"] ∧
    (fetch_new_otps whitespaceRowState).1 = ["999999"] := by
  refine ⟨?_, rfl, rfl⟩
  intro s
  cases hd : s.driver with
  | none => simp [fetch_new_otps, hd]
  | some d =>
      by_cases hg : d.getOk
      · intro hmem
        simp only [fetch_new_otps, hd, hg, not_true_eq_false, if_false] at hmem
        exact dedupLoop_no_empty _ _ hmem
      · simp [fetch_new_otps, hd, hg]

end IvaSms

